import Mathlib

/-!
Verification of the quick-cat core (src/quick-cat.py): path collection,
syntax tagging, directory-tree rendering, document assembly, and chunk
splitting.  Each Python function is shallowly embedded as an executable
Lean definition; filesystem effects (glob, path resolution, file reads)
are passed in as explicit function parameters, and the logging / file
writing side effects are reflected in the returned values.

Modelling conventions, shared by all definitions below:
* Python strings become Lean `String`; `len` becomes `String.length`
  (both count Unicode code points).
* `str.splitlines(keepends=True)` is modelled by `splitLinesKeepEnds`,
  which splits after each newline character; the documents produced by
  this script only ever contain finite text with ordinary newlines.
* `pathlib.Path` values are modelled either as the list of path segments
  of the resolved path (for resolved absolute paths) or as plain strings
  (for unresolved path text), mirroring which form the source holds.
* Python equality between a `pathlib.Path` object and a `str` is always
  `False` (`PurePath.__eq__` returns `NotImplemented` for non-path
  operands, and the reflected `str` comparison also fails), which the
  `PyVal` / `pyEq` pair makes explicit.
-/

/-- Right-fold concatenation of a list of strings (the value written by a
sequence of Python `write` calls, or by string `+=` in a loop). -/
def concatStrs (l : List String) : String := l.foldr (fun a b => a ++ b) ""

/-- Python string repetition `s * n`. -/
def strRepeat (s : String) : Nat → String
  | 0 => ""
  | n + 1 => s ++ strRepeat s n

/-- Auxiliary worker for `splitLinesKeepEnds`: `acc` holds the (reversed)
characters of the current line. -/
def splitLinesAux : List Char → List Char → List String
  | [], [] => []
  | [], acc => [String.mk acc.reverse]
  | c :: rest, acc =>
    if c = '\n' then String.mk (c :: acc).reverse :: splitLinesAux rest []
    else splitLinesAux rest (c :: acc)

/-- Model of Python `content.splitlines(keepends=True)` for newline-terminated
text: splits after each newline character, keeping it attached to its line. -/
def splitLinesKeepEnds (s : String) : List String := splitLinesAux s.data []

/-- Index of the last occurrence of character `c` in `cs`, if any. -/
def lastIdxOf (cs : List Char) (c : Char) : Option Nat :=
  ((cs.enum.filter (fun p => p.2 = c)).getLast?).map (fun p => p.1)

/-- Model of Python `s.startswith(pre)`. -/
def strStartsWith (s pre : String) : Bool := pre.data.isPrefixOf s.data

/-- Model of Python `s.lower()` for the ASCII text handled by this script. -/
def strToLower (s : String) : String := String.mk (s.data.map Char.toLower)

/-- Drop leading whitespace characters. -/
def dropLeadWs : List Char → List Char
  | [] => []
  | c :: r => if c.isWhitespace then dropLeadWs r else c :: r

/-- Model of Python `s.strip()` for ASCII whitespace: drop leading and
trailing whitespace. -/
def pyStrip (s : String) : String :=
  String.mk ((dropLeadWs ((dropLeadWs s.data).reverse)).reverse)

/-- Characters of the final path component: everything after the last `/`. -/
def afterLastSlash (l : List Char) : List Char :=
  l.foldl (fun acc c => if c = '/' then [] else acc ++ [c]) []

/-- Model of `pathlib.Path(s).suffix`: the extension (with its dot) of the
final path component; empty when the final component has no dot, starts with
its only dot, or ends with its last dot. -/
def path_suffix (s : String) : String :=
  let name := String.mk (afterLastSlash s.data)
  let cs := name.data
  match lastIdxOf cs '.' with
  | none => ""
  | some i => if 0 < i ∧ i + 1 < cs.length then String.mk (cs.drop i) else ""

/-- Model of `pathlib.Path(s).stem`: the final path component without its
`path_suffix`. -/
def path_stem (s : String) : String :=
  let name := String.mk (afterLastSlash s.data)
  String.mk (name.data.take (name.data.length - (path_suffix s).length))

/-- Lookup in a Python `dict` literal given as an association list in source
order: a duplicated key keeps its last value, and `dflt` is returned when the
key is absent (Python `d.get(k, dflt)`). -/
def dict_get (d : List (String × String)) (k : String) (dflt : String) : String :=
  match d.reverse.find? (fun e => e.1 == k) with
  | some e => e.2
  | none => dflt

/-- Python value appearing in the exclusion test of `collect_files`: either a
`str` produced by `glob.glob`, or a resolved `pathlib.Path` (as its list of
path segments). -/
inductive PyVal where
  | str (s : String)
  | path (p : List String)
deriving DecidableEq, Repr

/-- Python `==` (and hence `set` membership) between the values above.  A
`pathlib.Path` object never equals a `str`: `PurePath.__eq__` returns
`NotImplemented` for non-path operands and the reflected comparison fails, so
cross-type comparison is `False`. -/
def pyEq : PyVal → PyVal → Bool
  | .str a, .str b => a == b
  | .path a, .path b => a == b
  | _, _ => false

/-- Python truthiness of an optional string argument (`if prompt_file:`):
`None` and the empty string are falsy. -/
def pyTruthy : Option String → Bool
  | none => false
  | some s => !(s == "")

/-- The markdown fence delimiter (`line.startswith` argument in the source). -/
def fenceMarker : String := "```"
def FILE_TYPE_LANGUAGES : List (String × String) := [
  (".py", "python"),
  (".js", "javascript"),
  (".html", "html"),
  (".css", "css"),
  (".json", "json"),
  (".log", ""),
  (".txt", ""),
  (".md", "markdown"),
  (".xml", "xml"),
  (".yaml", "yaml"),
  (".yml", "yaml"),
  (".sh", "shell"),
  (".c", "c"),
  (".cpp", "cpp"),
  (".java", "java"),
  (".php", "php"),
  (".rb", "ruby"),
  (".go", "go"),
  (".swift", "swift"),
  (".rs", "rust"),
  (".pl", "perl"),
  (".ps1", "powershell"),
  (".bat", "batch"),
  (".vbs", "vbscript"),
  (".ini", "ini"),
  (".toml", "toml"),
  (".csv", "csv"),
  (".tsv", "tsv"),
  (".rst", "rst"),
  (".tex", "tex"),
  (".org", "org"),
  (".jsx", "jsx"),
  (".tsx", "tsx"),
  (".feature", "cucumber"),
  (".abap", "abap"),
  (".adb", "ada"),
  (".ads", "ada"),
  (".ada", "ada"),
  (".ahk", "ahk"),
  (".ahkl", "ahk"),
  (".htaccess", "apacheconf"),
  ("apache.conf", "apacheconf"),
  ("apache2.conf", "apacheconf"),
  (".applescript", "applescript"),
  (".as", "as"),
  (".as3", "as3"),
  (".asy", "asy"),
  (".ksh", "bash"),
  (".bash", "bash"),
  (".ebuild", "bash"),
  (".eclass", "bash"),
  (".bat", "bat"),
  (".cmd", "bat"),
  (".befunge", "befunge"),
  (".bmx", "blitzmax"),
  (".boo", "boo"),
  (".bf", "brainfuck"),
  (".b", "brainfuck"),
  (".c", "c"),
  (".h", "c"),
  (".cfm", "cfm"),
  (".cfml", "cfm"),
  (".cfc", "cfm"),
  (".tmpl", "cheetah"),
  (".spt", "cheetah"),
  (".cl", "cl"),
  (".lisp", "cl"),
  (".el", "cl"),
  (".clj", "clojure"),
  (".cljs", "clojure"),
  (".cmake", "cmake"),
  ("CMakeLists.txt", "cmake"),
  (".coffee", "coffeescript"),
  (".sh-session", "console"),
  ("control", "control"),
  (".cpp", "cpp"),
  (".hpp", "cpp"),
  (".c++", "cpp"),
  (".h++", "cpp"),
  (".cc", "cpp"),
  (".hh", "cpp"),
  (".cxx", "cpp"),
  (".hxx", "cpp"),
  (".pde", "cpp"),
  (".cs", "csharp"),
  (".css", "css"),
  (".pyx", "cython"),
  (".pxd", "cython"),
  (".pxi", "cython"),
  (".d", "d"),
  (".di", "d"),
  (".pas", "delphi"),
  (".diff", "diff"),
  (".patch", "diff"),
  (".dpatch", "dpatch"),
  (".darcspatch", "dpatch"),
  (".duel", "duel"),
  (".jbst", "duel"),
  (".dylan", "dylan"),
  (".dyl", "dylan"),
  (".erb", "erb"),
  (".erl-sh", "erl"),
  (".erl", "erlang"),
  (".hrl", "erlang"),
  (".evoque", "evoque"),
  (".factor", "factor"),
  (".flx", "felix"),
  (".flxh", "felix"),
  (".f", "fortran"),
  (".f90", "fortran"),
  (".s", "gas"),
  (".S", "gas"),
  (".kid", "genshi"),
  (".gitignore", "gitignore"),
  (".vert", "glsl"),
  (".frag", "glsl"),
  (".geo", "glsl"),
  (".plot", "gnuplot"),
  (".plt", "gnuplot"),
  (".go", "go"),
  (".man", "groff"),
  (".1", "groff"),
  (".2", "groff"),
  (".3", "groff"),
  (".4", "groff"),
  (".5", "groff"),
  (".6", "groff"),
  (".7", "groff"),
  (".8", "groff"),
  (".9", "groff"),
  (".haml", "haml"),
  (".hs", "haskell"),
  (".htm", "html"),
  (".xhtml", "html"),
  (".xslt", "html"),
  (".hx", "hx"),
  (".hy", "hybris"),
  (".hyb", "hybris"),
  (".cfg", "ini"),
  (".io", "io"),
  (".ik", "ioke"),
  (".weechatlog", "irc"),
  (".jade", "jade"),
  (".java", "java"),
  (".jsp", "jsp"),
  (".lhs", "lhs"),
  (".ll", "llvm"),
  (".lgt", "logtalk"),
  (".lua", "lua"),
  (".wlua", "lua"),
  (".mak", "make"),
  ("Makefile", "make"),
  ("makefile", "make"),
  ("Makefile.", "make"),
  ("GNUmakefile", "make"),
  (".mao", "mako"),
  (".maql", "maql"),
  (".mhtml", "mason"),
  (".mc", "mason"),
  (".mi", "mason"),
  ("autohandler", "mason"),
  ("dhandler", "mason"),
  (".md", "markdown"),
  (".mo", "modelica"),
  (".def", "modula2"),
  (".mod", "modula2"),
  (".moo", "moocode"),
  (".mu", "mupad"),
  (".mxml", "mxml"),
  (".myt", "myghty"),
  ("autodelegate", "myghty"),
  (".asm", "nasm"),
  (".ASM", "nasm"),
  (".ns2", "newspeak"),
  (".objdump", "objdump"),
  (".m", "objectivec"),
  (".j", "objectivej"),
  (".ml", "ocaml"),
  (".mli", "ocaml"),
  (".mll", "ocaml"),
  (".mly", "ocaml"),
  (".ooc", "ooc"),
  (".pl", "perl"),
  (".pm", "perl"),
  (".php", "php"),
  (".php(345)", "php"),
  (".ps", "postscript"),
  (".eps", "postscript"),
  (".pot", "pot"),
  (".po", "pot"),
  (".pov", "pov"),
  (".inc", "pov"),
  (".prolog", "prolog"),
  (".pro", "prolog"),
  (".pl", "prolog"),
  (".properties", "properties"),
  (".proto", "protobuf"),
  (".py3tb", "py3tb"),
  (".pytb", "pytb"),
  (".sc", "python"),
  (".tac", "python"),
  (".r", "r"),
  (".rb", "rb"),
  (".rbw", "rb"),
  (".rake", "rb"),
  (".gemspec", "rb"),
  (".rbx", "rb"),
  (".duby", "rb"),
  (".Rout", "rconsole"),
  (".r", "rebol"),
  (".r3", "rebol"),
  (".cw", "redcode"),
  (".rhtml", "rhtml"),
  (".rst", "rst"),
  (".sass", "sass"),
  (".scala", "scala"),
  (".scaml", "scaml"),
  (".scm", "scheme"),
  (".scss", "scss"),
  (".st", "smalltalk"),
  (".tpl", "smarty"),
  ("sources.list", "sourceslist"),
  (".S", "splus"),
  (".R", "splus"),
  (".sql", "sql"),
  (".sqlite3-console", "sqlite3"),
  ("squid.conf", "squidconf"),
  (".ssp", "ssp"),
  (".tcl", "tcl"),
  (".tcsh", "tcsh"),
  (".csh", "tcsh"),
  (".tex", "tex"),
  (".txt", "text"),
  (".v", "v"),
  (".vala", "vala"),
  (".vapi", "vala"),
  (".vb", "vbnet"),
  (".bas", "vbnet"),
  (".vm", "velocity"),
  (".fhtml", "velocity"),
  (".vim", "vim"),
  (".vimrc", "vim"),
  (".xqy", "xquery"),
  (".xquery", "xquery")
]

/-- Translation of `get_file_type` (src/quick-cat.py:340-353): the markdown
language tag for a file, looked up by the lower-cased `Path(file).suffix` in
the static table, defaulting to `"text"`. -/
def get_file_type (file : String) : String :=
  let ext := strToLower (path_suffix file)
  dict_get FILE_TYPE_LANGUAGES ext "text"

/-- Translation of `generate_directory_structure` (src/quick-cat.py:313-337).
The resolution of a file path to the parts of its path relative to the
invocation root (`Path(file).resolve().relative_to(root)`, falling back to the
absolute path) is abstracted as the `parts` parameter.  A rendered line is
appended only if the identical line text is not already present. -/
def generate_directory_structure (parts : String → List String) (files : List String) :
    List String :=
  files.foldl (fun acc file =>
    let ps := parts file
    (List.range ps.length).foldl (fun acc i =>
      let line := strRepeat "│   " i ++ "├── " ++ ps.getD i ""
      if line ∈ acc then acc else acc ++ [line]) acc) []

/-- Text of each `out_file.write` call of the built-in LLM prompt branch of
`concatenate_files` (src/quick-cat.py:375-527), in source order. -/
def builtin_prompt_writes : List String := [
  "You are a super helpful coding assistant!\n\n",
  "Instructions:\n\nBelow you will find relevant files for a project I am working on. Please analyze these different files and confirm that you understand their purpose. I will provide multiple files, and I will let you know when the final file is provided. Do not offer updates or show me code at this time. If you do not understand something, please ask me questions for clarification.\n\n",
  "\n# When providing code help, please adhere to the following guidelines\n",
  "\n1. **Provide Code in Sections**: Do not provide whole files. Instead, provide specific sections, functions, or lines as needed.\n",
  "\n2. **Example for Line Changes**:\n",
  "    - Change this line:\n",
  "\n      ```python\n",
  "      Old line here\n",
  "      ```\n",
  "\n    - To this:\n",
  "\n      ```python\n",
  "      New line here\n",
  "      ```\n",
  "\n**Note**: When providing markdown code boxes, escape internal backticks by using triple backslashes before the backticks.\n",
  "\n## Style Guide for Writing Tools\n",
  "\n### 1. **Introduction**\n",
  "\n- Purpose of the Style Guide\n",
  "- Importance of Consistency\n",
  "\n## 2. **Script Header**\n",
  "\n- **Script Name Comment**: Include the name of the script at the top as a comment. This helps identify the log and output files.\n",
  "\n  ```python\n",
  "  # script_name.py\n",
  "  ```\n",
  "\n- **Summary Comment**: Include a brief summary of the script's purpose and functionality in comments at the top, after the filename and a line break.\n",
  "\n  ```python\n",
  "  # script_name.py\n",
  "\n  # This script combines multiple text files into a single text file.\n",
  "  # It prompts the user for the directory containing the text files,\n",
  "  # reads each file, and writes their contents into an output file.\n",
  "  ```\n",
  "\n## 3. **Imports**\n",
  "\n- **Grouping Imports**: Group imports in the following order: standard library imports, related third-party imports, local application/library-specific imports.\n",
  "- **Absolute Imports**: Use absolute imports when possible.\n",
  "\n## 4. **Configuration Management**\n",
  "\n- **Configuration Files**: Use configuration files for storing settings that might change frequently. This can help make your scripts more flexible and easier to manage.\n",
  "\n  ```python\n",
  "  import json\n",
  "\n  def load_config(config_file):\n",
  "      \"\"\"Load configuration settings from a file.\"\"\"\n",
  "      with open(config_file, 'r') as f:\n",
  "          config = json.load(f)\n",
  "      return config\n",
  "  ```\n",
  "\n## 5. **Function Definitions**\n",
  "\n- **Comment Titles**: Provide a concise title for every function as a comment above the function. Example:\n",
  "\n  ```python\n",
  "  # Data processing\n",
  "  def process_data(data):\n",
  "    \"\"\"\n",
  "    Process the given data.\n",
  "\n    Parameters:\n",
  "        data (list): A list of data items to be processed.\n",
  "\n    Returns:\n",
  "        list: The processed data.\n",
  "    \"\"\"\n",
  "    print(f\"Processing data: {data}\")\n",
  "    processed_data = [item * 2 for item in data]\n",
  "    print(\"Data processing complete.\")\n",
  "    return processed_data\n",
  "  ```\n",
  "\n- **Function Docstrings**: Provide a clear explanation of the function's purpose, parameters, and return values. Example:\n",
  "\n  ```python\n",
  "  # Example function\n",
  "  def example_function(param1, param2):\n",
  "      \"\"\"\n",
  "      Brief description of the function.\n",
  "\n      Parameters:\n",
  "          param1 (type): Description of param1.\n",
  "          param2 (type): Description of param2.\n",
  "      \n",
  "      Returns:\n",
  "          return_type: Description of the return value.\n",
  "      \"\"\"\n",
  "  ```\n",
  "\n- **Modular Code**: Break down tasks into small, reusable functions.\n",
  "\n## 6. **Code Formatting**\n",
  "\n- **Indentation**: Use 4 spaces for indentation.\n",
  "- **Line Length**: Limit all lines to a maximum of 79 characters.\n",
  "- **Blank Lines**: Use blank lines to separate top-level function and class definitions.\n",
  "- **String Quotes**: In general, use single quotes for short strings and double quotes for longer strings or when a string contains a single quote.\n",
  "- **Whitespace in Expressions and Statements**:\n",
  "  - Avoid extraneous whitespace in the following situations: immediately inside parentheses, brackets or braces; immediately before a comma, semicolon, or colon; immediately before the open parenthesis that starts the argument list of a function call.\n",
  "  - Use a single space around binary operators and after a comma.\n",
  "- **Naming Conventions**:\n",
  "  - Use `CamelCase` for class names.\n",
  "  - Use `lower_case_with_underscores` for functions and variable names.\n",
  "  - Use `UPPER_CASE_WITH_UNDERSCORES` for constants.\n",
  "\n## 7. **Commenting**\n",
  "\n- **Inline Comments**: Use comments to explain complex logic or important sections of code.\n",
  "\n  ```python\n",
  "  # This loop processes each file in the directory\n",
  "  for file in files:\n",
  "      ...\n",
  "  ```\n",
  "\n## 8. **Logging**\n",
  "\n- **Setup Logging**: Configure logging to output to both the console and a log file in the `./logs` directory. The log file should be named according to the script name.\n",
  "\n  ```python\n",
  "  def setup_logging(script_name):\n",
  "      \"\"\"Setup logging configuration.\"\"\"\n",
  "      log_dir = './logs'\n",
  "      os.makedirs(log_dir, exist_ok=True)\n",
  "      log_file = os.path.join(log_dir, f'{script_name}.log')\n",
  "\n      logging.basicConfig(level=logging.DEBUG,\n",
  "                          format='%(asctime)s - %(levelname)s - %(message)s',\n",
  "                          handlers=[\n",
  "                              logging.FileHandler(log_file),\n",
  "                              logging.StreamHandler()\n",
  "                          ])\n",
  "  ```\n",
  "\n- **Logging Levels**: Use appropriate logging levels (`DEBUG`, `INFO`, `ERROR`) to provide detailed and useful log messages.\n",
  "\n    ```python\n",
  "    logging.debug(f\"Processing file: {file_path}\")\n",
  "    logging.info(\"Operation completed successfully.\")\n",
  "    logging.error(f\"Error processing file: {e}\")\n",
  "    ```\n",
  "\n## 9. **Error Handling**\n",
  "\n- **Try-Except Blocks**: Use try-except blocks to handle potential errors gracefully.\n",
  "\n    ```python\n",
  "    try:\n",
  "        # code that may raise an exception\n",
  "    except Exception as e:\n",
  "        logging.error(f\"An error occurred: {e}\")\n",
  "    ```\n",
  "\n- **Using Whole New Functions**: Implement whole new functions within try-except blocks to keep the code modular and maintainable.\n",
  "\n## 10. **Testing and Debugging**\n",
  "\n- **Unit Tests**: Write unit tests for your functions to ensure they work correctly.\n",
  "\n  ```python\n",
  "  import unittest\n",
  "\n  class TestExampleFunction(unittest.TestCase):\n",
  "      def test_example_function(self):\n",
  "          self.assertEqual(example_function(param1, param2), expected_result)\n",
  "\n  if __name__ == '__main__':\n",
  "      unittest.main()\n",
  "  ```\n",
  "\n## 12. **PEP 8 Compliance**\n",
  "\n- Summary of Key Points\n",
  "  - **Indentation**: Use 4 spaces per indentation level.\n",
  "  - **Line Length**: Limit all lines to a maximum of 79 characters.\n",
  "  - **Blank Lines**: Use blank lines to separate top-level function and class definitions.\n",
  "  - **Imports**:\n",
  "    - Imports should usually be on separate lines.\n",
  "    - Group imports in the following order: standard library imports, related third-party imports, local application/library-specific imports.\n",
  "    - Use absolute imports when possible.\n",
  "  - **String Quotes**: In general, use single quotes for short strings and double quotes for longer strings or when a string contains a single quote.\n",
  "  - **Whitespace in Expressions and Statements**:\n",
  "    - Avoid extraneous whitespace in the following situations: immediately inside parentheses, brackets or braces; immediately before a comma, semicolon, or colon; immediately before the open parenthesis that starts the argument list of a function call.\n",
  "    - Use a single space around binary operators and after a comma.\n",
  "  - **Naming Conventions**:\n",
  "    - Use `CamelCase` for class names.\n",
  "    - Use `lower_case_with_underscores` for functions and variable names.\n",
  "    - Use `UPPER_CASE_WITH_UNDERSCORES` for constants.\n",
  "\nRemember to follow the guidelines provided in the style guide to maintain consistency and readability in the code.\n",
  "\nINSTRUCTION I am senging multiple parts, please confirm receipt of the files and let me know when you are ready for the next part.  Do not do anything else until you have all the parts.\n\n"
]

/-- The built-in instructional preamble: the concatenation of the write calls
above. -/
def builtin_prompt : String := concatStrs builtin_prompt_writes

/-- Translation of the preamble-selection prefix of `concatenate_files`
(src/quick-cat.py:365-527).  `read` models opening and reading a file,
returning `none` when the read raises; in that case the exception is caught,
an error is logged, and nothing is written. -/
def preamble_out (read : String → Option String) (prompt_file : Option String)
    (skip_prompt : Bool) : String :=
  if pyTruthy prompt_file then
    match read (prompt_file.getD "") with
    | some prompt_content => prompt_content ++ "\n\n"
    | none => ""
  else if !skip_prompt then builtin_prompt
  else ""

/-- Translation of the directory-structure section of `concatenate_files`
(src/quick-cat.py:529-535): header line, root marker, one line per rendered
structure entry, then a blank line. -/
def structure_section (parts : String → List String) (files : List String) : String :=
  "\nHere is the directory structure:\n" ++ "\n├── ./\n" ++
  ((generate_directory_structure parts files).foldl (fun acc line => acc ++ (line ++ "\n")) "")
  ++ "\n"

/-- Translation of one iteration of the per-file loop of `concatenate_files`
(src/quick-cat.py:539-556): relative-path header, blank line, opening fence
tagged by `get_file_type` of the resolved path, the file content (or nothing
when the read raises: the exception is caught and an error logged), and the
closing fence.  `rel` models `path.relative_to(Path('.').resolve())` with its
absolute-path fallback, `resolve_str` models `Path(file).resolve()` as path
text, and `read` models `open(file).read()`. -/
def file_block (read : String → Option String) (rel : String → String)
    (resolve_str : String → String) (file : String) : String :=
  "./" ++ rel file ++ "\n\n" ++ ("```" ++ get_file_type (resolve_str file) ++ "\n") ++
  (match read file with
   | some content => content
   | none => "") ++ "\n```\n\n"

/-- The per-file loop of `concatenate_files`, accumulating the text written
for each file in order. -/
def files_loop (read : String → Option String) (rel : String → String)
    (resolve_str : String → String) (files : List String) : String :=
  files.foldl (fun acc file => acc ++ file_block read rel resolve_str file) ""

/-- Translation of `concatenate_files` (src/quick-cat.py:355-556), as the full
text written to the output file: preamble, directory-structure section, files
header, then one block per file. -/
def concatenate_files (read : String → Option String) (parts : String → List String)
    (rel : String → String) (resolve_str : String → String) (files : List String)
    (skip_prompt : Bool) (prompt_file : Option String) : String :=
  preamble_out read prompt_file skip_prompt ++
  structure_section parts files ++
  "\nHere are the files:\n\n" ++
  files_loop read rel resolve_str files

/-- Glob expansion for one pattern as performed by `collect_files`: with the
recursive flag the pattern is prefixed by the recursive wildcard and matched
with `glob.glob(..., recursive=True)` (modelled by `globR`), otherwise plain
`glob.glob` (modelled by `glob`). -/
def glob_for (glob globR : String → List String) (recursive : Bool) (pattern : String) :
    List String :=
  if recursive then globR ("**/" ++ pattern) else glob pattern

/-- The keep condition of the final loop of `collect_files`
(src/quick-cat.py:829-832): the resolved path must not be a member of the set
of glob-matched exclusion strings (a `Path`-vs-`str` comparison, hence never a
member), and must not lie under any exclusion pattern that is a directory. -/
def not_excluded (glob globR : String → List String) (resolve : String → List String)
    (is_dir : String → Bool) (exclude_patterns : List String) (recursive : Bool)
    (file : String) : Bool :=
  let excluded_files :=
    (exclude_patterns.foldl (fun acc pattern => acc ++ glob_for glob globR recursive pattern)
      []).map PyVal.str
  let excluded_dirs := (exclude_patterns.filter is_dir).map resolve
  let file_path := resolve file
  !(excluded_files.any (fun e => pyEq (PyVal.path file_path) e)) &&
  !(excluded_dirs.any (fun d => d.isPrefixOf file_path))

/-- Translation of `collect_files` (src/quick-cat.py:796-834).  `glob` and
`globR` model non-recursive and recursive `glob.glob`, `resolve` models
`Path(p).resolve()` as the list of path segments, and `is_dir` models
`Path(p).is_dir()` on the raw exclusion pattern.  The source computes the
excluded set and excluded directories once before its final loop; both are
the same values recomputed inside `not_excluded`. -/
def collect_files (glob globR : String → List String) (resolve : String → List String)
    (is_dir : String → Bool) (patterns : List String) (exclude_patterns : List String)
    (recursive : Bool) : List String :=
  let all_files :=
    patterns.foldl (fun acc pattern => acc ++ glob_for glob globR recursive pattern) []
  all_files.foldl (fun acc file =>
    if not_excluded glob globR resolve is_dir exclude_patterns recursive file then
      acc ++ [file]
    else acc) []

/-- Translation of the inner `count_chunks` dry-run pass of
`split_into_chunks_with_messages` (src/quick-cat.py:667-691).  The state is
(current chunk text, chunk count, fence flag); the fence flag is toggled but
never read, exactly as in the source. -/
def count_chunks (content : String) (chunk_size : Nat) : Nat :=
  let lines := splitLinesKeepEnds content
  let res := lines.foldl (fun (st : String × Nat × Bool) line =>
    let in_code_box := if strStartsWith line fenceMarker then !st.2.2 else st.2.2
    let (current_chunk, chunk_count) :=
      if st.1.length + line.length > chunk_size then ("", st.2.1 + 1) else (st.1, st.2.1)
    (current_chunk ++ line, chunk_count, in_code_box)) ("", 0, false)
  if res.1.length > 0 then res.2.1 + 1 else res.2.1

/-- One string appended to the current chunk by the splitter, marked with
whether it is a line of the original document (`orig = true`) or synthetic
marker text inserted by the splitter (`orig = false`).  The source holds the
chunk as the concatenation of these pieces; its length is the sum of the
piece lengths. -/
structure Piece where
  orig : Bool
  text : String
deriving DecidableEq, Repr

/-- A synthetic piece (header / footer / fence-repair text). -/
def synPiece (s : String) : Piece := ⟨false, s⟩

/-- An original document line. -/
def origPiece (s : String) : Piece := ⟨true, s⟩

/-- Length of the chunk string represented by a piece list (Python
`len(current_chunk)`). -/
def pieceLen (ps : List Piece) : Nat := (ps.map (fun p => p.text.length)).sum

/-- The chunk string represented by a piece list. -/
def chunkText (ps : List Piece) : String := concatStrs (ps.map (fun p => p.text))

/-- Concatenation of the original document lines of a chunk, excluding all
synthetic pieces. -/
def origText (ps : List Piece) : String :=
  concatStrs ((ps.filter (fun p => p.orig)).map (fun p => p.text))

/-- Translation of `add_end_of_part_message` (src/quick-cat.py:695-700): close
the fence if currently inside one, then append the continuation notice and
the end-of-part footer. -/
def add_end_of_part_message (chunk : List Piece) (part_number total_chunks : Nat)
    (current_file_name : String) (in_code_box : Bool) : List Piece :=
  (if in_code_box then chunk ++ [synPiece ("```" ++ "\n")] else chunk) ++
  [synPiece ("\n" ++ current_file_name ++ " continued in next file\n"),
   synPiece ("\nEnd of part " ++ toString part_number ++ " of " ++ toString total_chunks ++
     ". Please confirm receipt and let me know when you are ready for the next part.\n")]

/-- Translation of `add_start_of_part_message` (src/quick-cat.py:702-721):
part header, continuation line, and a reopened fence tagged by
`get_file_type` of the tracked file name when inside a code box. -/
def add_start_of_part_message (current_chunk : List Piece) (part_number : Nat)
    (current_file_name : String) (in_code_box : Bool) : List Piece :=
  let c := current_chunk ++
    [synPiece ("\nBeginning of part " ++ toString part_number ++ "\n\n"),
     synPiece (current_file_name ++ " (continued)\n\n")]
  if in_code_box then c ++ [synPiece ("```" ++ get_file_type current_file_name ++ "\n")]
  else c

/-- Loop state of `split_into_chunks_with_messages`: finished chunks, the
current chunk, the next part number, the fence flag, and the last seen
file-path header line. -/
structure SplitState where
  chunks : List (List Piece)
  current_chunk : List Piece
  part_number : Nat
  in_code_box : Bool
  current_file_name : String
deriving Repr

/-- One iteration of the main loop of `split_into_chunks_with_messages`
(src/quick-cat.py:733-749), in source order: toggle the fence flag on a
fence-marker line, finalize the current chunk when appending the line would
exceed the budget, append the line, then update the tracked file name. -/
def stepLine (chunk_size total_chunks : Nat) (st : SplitState) (line : String) :
    SplitState :=
  let in_code_box := if strStartsWith line fenceMarker then !st.in_code_box else st.in_code_box
  let st1 : SplitState :=
    if pieceLen st.current_chunk + line.length > chunk_size then
      { chunks := st.chunks ++ [add_end_of_part_message st.current_chunk st.part_number
          total_chunks st.current_file_name in_code_box],
        current_chunk :=
          add_start_of_part_message [] (st.part_number + 1) st.current_file_name in_code_box,
        part_number := st.part_number + 1,
        in_code_box := in_code_box,
        current_file_name := st.current_file_name }
    else { st with in_code_box := in_code_box }
  { st1 with
    current_chunk := st1.current_chunk ++ [origPiece line],
    current_file_name :=
      if strStartsWith line "./" && !in_code_box then pyStrip line else st.current_file_name }

/-- Translation of `split_into_chunks_with_messages` (src/quick-cat.py:655-768,
the final fence-aware definition, which overrides the two earlier drafts of
the same name).  Returns the chunks, each as its list of pieces; the text of
chunk `i` is `chunkText` of the `i`-th element.  A nonempty trailing chunk
receives a fence close when still inside a code box and the terminal footer.
The Python truthiness test `if current_chunk:` is `current_chunk ≠ []` here:
every appended piece is a nonempty string, so the represented string is empty
exactly when the piece list is. -/
def split_into_chunks_with_messages (content : String) (chunk_size : Nat) :
    List (List Piece) :=
  let total_chunks := count_chunks content chunk_size
  let lines := splitLinesKeepEnds content
  let st := lines.foldl (stepLine chunk_size total_chunks) ⟨[], [], 1, false, ""⟩
  if st.current_chunk.isEmpty then st.chunks
  else
    st.chunks ++
      [(if st.in_code_box then st.current_chunk ++ [synPiece ("```" ++ "\n")]
        else st.current_chunk) ++
       [synPiece ("\nEnd of part " ++ toString st.part_number ++ " of " ++
         toString total_chunks ++
         ". This is the final part. Please confirm receipt of all parts and proceed with the analysis only after receiving this message.\n")]]

/-- Names of the chunk files written by `split_into_chunks_with_messages`
(src/quick-cat.py:757-766): stem of the split file, `_chunk_<n>`, original
extension. -/
def chunk_file_names (file_path : String) (n : Nat) : List String :=
  (List.range n).map (fun i =>
    path_stem file_path ++ "_chunk_" ++ toString (i + 1) ++ path_suffix file_path)

/-- Observable outcome of one run of the script's `main`
(src/quick-cat.py:836-892): the process exit status, the output files
written (the assembled document and its chunk files; the interactive
clipboard / chunk-deletion dialogue after that point is out of scope), and
whether the no-files fatal error was logged. -/
structure MainResult where
  exit_code : Nat
  output_files : List String
  no_files_error : Bool
deriving DecidableEq, Repr

/-- Translation of `main` (src/quick-cat.py:836-892) up to the interactive
clipboard stage: collect files; when none are found, log the fatal error and
return (a plain `return` from `main`, so the process still exits with status
0); otherwise write the assembled document and its chunks. -/
def main_run (glob globR : String → List String) (resolve : String → List String)
    (is_dir : String → Bool) (read : String → Option String)
    (parts : String → List String) (rel : String → String) (resolve_str : String → String)
    (patterns : List String) (exclude : List String) (recursive : Bool)
    (output : String) (skip_prompt : Bool) (prompt_file : Option String)
    (chunk_size : Nat) : MainResult :=
  let files := collect_files glob globR resolve is_dir patterns exclude recursive
  if files.isEmpty then ⟨0, [], true⟩
  else
    let document := concatenate_files read parts rel resolve_str files skip_prompt prompt_file
    let chunks := split_into_chunks_with_messages document chunk_size
    ⟨0, output :: chunk_file_names output chunks.length, false⟩

/-- The original-document text accumulated in a split state: the original
lines of all finished chunks followed by those of the current chunk. -/
def splitInv (st : SplitState) : String :=
  concatStrs (st.chunks.map origText) ++ origText st.current_chunk

/-- Concrete glob instance for the exclusion scenario of the path collector:
the include pattern matches two plain files; the exclude pattern matches the
first of them. -/
def c1_glob : String → List String := fun p =>
  if p = "*.py" then ["a.py", "b.py"] else if p = "a.py" then ["a.py"] else []

/-- Concrete path resolution for the exclusion scenario. -/
def c1_resolve : String → List String := fun s => ["home", "user", s]

/-- In the exclusion scenario no exclusion pattern is a directory. -/
def c1_is_dir : String → Bool := fun _ => false

/-- Concrete glob instance for the duplicate-match scenario of the path
collector: the literal pattern and the wildcard pattern both match a.py. -/
def c2_glob : String → List String := fun p =>
  if p = "*.py" then ["a.py", "b.py"] else if p = "a.py" then ["a.py"] else []

/-- Concrete path resolution for the duplicate-match scenario. -/
def c2_resolve : String → List String := fun s => ["home", "user", s]

/-- No exclusion pattern is a directory in the duplicate-match scenario. -/
def c2_is_dir : String → Bool := fun _ => false

/-- A 100-character document of five 20-character lines, used with chunk size
40 for the chunk-count comparison. -/
def chunk_doc_c3 : String :=
  "aaaaaaaaaaaaaaaaaaa\naaaaaaaaaaaaaaaaaaa\naaaaaaaaaaaaaaaaaaa\naaaaaaaaaaaaaaaaaaa\naaaaaaaaaaaaaaaaaaa\n"

/-- A document whose second line opens a code fence and triggers the size
check of the splitter at chunk size 10. -/
def chunk_doc_c4 : String := "aaaaa\n```py\n"

/-- Concrete read function with one readable and one unreadable file. -/
def c6_read : String → Option String := fun f =>
  if f = "ok.py" then some "print(1)\n" else none

/-- Concrete relative-path decomposition for the unreadable-file scenario. -/
def c6_parts : String → List String := fun f => [f]

/-- A glob instance matching nothing, for the zero-files scenario. -/
def c7_glob : String → List String := fun _ => []

/-- Concrete relative-path decomposition for the tree-renderer scenario: two
files in distinct directories that share the directory name x at depth 1. -/
def c10_parts : String → List String := fun f =>
  if f = "a/x/f.py" then ["a", "x", "f.py"]
  else if f = "b/x/g.py" then ["b", "x", "g.py"] else []

theorem concatStrs_nil : concatStrs [] = "" := rfl

theorem concatStrs_cons (a : String) (l : List String) :
    concatStrs (a :: l) = a ++ concatStrs l := rfl

theorem concatStrs_append (l₁ l₂ : List String) :
    concatStrs (l₁ ++ l₂) = concatStrs l₁ ++ concatStrs l₂ := by
  induction l₁ with
  | nil => simp only [List.nil_append, concatStrs_nil, String.empty_append]
  | cons a t ih => simp only [List.cons_append, concatStrs_cons, ih, String.append_assoc]

theorem splitLinesAux_join (cs : List Char) :
    ∀ acc, concatStrs (splitLinesAux cs acc) = String.mk (acc.reverse ++ cs) := by
  induction cs with
  | nil =>
    intro acc
    cases acc with
    | nil => rfl
    | cons a as =>
      show String.mk (a :: as).reverse ++ "" = String.mk ((a :: as).reverse ++ [])
      rw [List.append_nil]
      exact String.append_empty _
  | cons c rest ih =>
    intro acc
    simp only [splitLinesAux]
    by_cases h : c = '\n'
    · rw [if_pos h, concatStrs_cons, ih []]
      show String.mk ((c :: acc).reverse ++ (([] : List Char).reverse ++ rest)) =
        String.mk (acc.reverse ++ c :: rest)
      congr 1
      simp
    · rw [if_neg h, ih (c :: acc)]
      congr 1
      simp

theorem splitLines_join (s : String) : concatStrs (splitLinesKeepEnds s) = s := by
  show concatStrs (splitLinesAux s.data []) = s
  rw [splitLinesAux_join s.data []]
  rfl

theorem origText_append (a b : List Piece) : origText (a ++ b) = origText a ++ origText b := by
  simp only [origText, List.filter_append, List.map_append, concatStrs_append]

theorem origText_nil : origText [] = "" := rfl

theorem origText_single_syn (s : String) : origText [synPiece s] = "" := rfl

theorem origText_single_orig (s : String) : origText [origPiece s] = s :=
  String.append_empty s

theorem origText_add_end (c : List Piece) (p t : Nat) (f : String) (b : Bool) :
    origText (add_end_of_part_message c p t f b) = origText c := by
  cases b <;>
    simp [add_end_of_part_message, origText_append, origText, synPiece, concatStrs,
      String.append_empty]

theorem origText_add_start_nil (p : Nat) (f : String) (b : Bool) :
    origText (add_start_of_part_message [] p f b) = "" := by
  cases b <;> simp [add_start_of_part_message, origText, synPiece, concatStrs]

theorem stepLine_inv (size total : Nat) (st : SplitState) (line : String) :
    splitInv (stepLine size total st line) = splitInv st ++ line := by
  unfold stepLine splitInv
  by_cases h : pieceLen st.current_chunk + line.length > size
  · simp only [if_pos h, List.map_append, List.map_cons, List.map_nil, concatStrs_append,
      origText_append, origText_add_end, origText_add_start_nil, origText_single_orig,
      concatStrs_cons, concatStrs_nil, String.append_empty, String.empty_append,
      String.append_assoc]
  · simp only [if_neg h, origText_append, origText_single_orig, String.append_assoc]

theorem foldl_stepLine_inv (size total : Nat) (lines : List String) :
    ∀ st : SplitState,
      splitInv (lines.foldl (stepLine size total) st) = splitInv st ++ concatStrs lines := by
  induction lines with
  | nil => intro st; exact (String.append_empty _).symm
  | cons l ls ih =>
    intro st
    show splitInv (ls.foldl (stepLine size total) (stepLine size total st l)) = _
    rw [ih, stepLine_inv, concatStrs_cons, String.append_assoc]

/-- C5: for every input document and every chunk size, concatenating the
original-content lines of all chunks produced by
`split_into_chunks_with_messages`, in chunk order and excluding the synthetic
header / footer / fence-close / fence-reopen pieces the splitter inserts,
reproduces the input document exactly. -/
theorem split_chunks_reassemble (content : String) (chunk_size : Nat) :
    concatStrs ((split_into_chunks_with_messages content chunk_size).map origText) =
      content := by
  unfold split_into_chunks_with_messages
  have hinv := foldl_stepLine_inv chunk_size (count_chunks content chunk_size)
    (splitLinesKeepEnds content) ⟨[], [], 1, false, ""⟩
  rw [splitLines_join] at hinv
  set st := (splitLinesKeepEnds content).foldl
    (stepLine chunk_size (count_chunks content chunk_size)) ⟨[], [], 1, false, ""⟩ with hst
  have hinit : splitInv ⟨[], [], 1, false, ""⟩ = "" := rfl
  rw [hinit, String.empty_append] at hinv
  by_cases h : st.current_chunk.isEmpty
  · simp only [if_pos h]
    have hnil : st.current_chunk = [] := List.isEmpty_iff.mp h
    rw [splitInv, hnil, origText_nil, String.append_empty] at hinv
    exact hinv
  · simp only [if_neg h]
    rw [List.map_append, concatStrs_append, List.map_cons, List.map_nil, concatStrs_cons,
      concatStrs_nil, origText_append, origText_single_syn, String.append_empty,
      String.append_empty]
    have hfin : origText (if st.in_code_box then
        st.current_chunk ++ [synPiece ("```" ++ "\n")] else st.current_chunk) =
        origText st.current_chunk := by
      cases hb : st.in_code_box
      · rw [if_neg (by simp [hb])]
      · rw [if_pos (by simp [hb]), origText_append, origText_single_syn, String.append_empty]
    rw [hfin]
    exact hinv

theorem foldl_append_flatMap {α β : Type} (f : α → List β) (l : List α) :
    ∀ acc : List β, l.foldl (fun a x => a ++ f x) acc = acc ++ l.flatMap f := by
  induction l with
  | nil => intro acc; simp
  | cons x t ih => intro acc; simp only [List.foldl_cons, ih, List.flatMap_cons,
      List.append_assoc]

theorem foldl_filter_append {α : Type} (p : α → Bool) (l : List α) :
    ∀ acc : List α,
      l.foldl (fun a x => if p x then a ++ [x] else a) acc = acc ++ l.filter p := by
  induction l with
  | nil => intro acc; simp
  | cons x t ih =>
    intro acc
    by_cases h : p x
    · simp [List.foldl_cons, h, ih, List.filter_cons, List.append_assoc]
    · simp [List.foldl_cons, h, ih, List.filter_cons]

theorem foldl_append_concatStrs {α : Type} (f : α → String) (l : List α) :
    ∀ acc : String, l.foldl (fun a x => a ++ f x) acc = acc ++ concatStrs (l.map f) := by
  induction l with
  | nil => intro acc; exact (String.append_empty _).symm
  | cons x t ih => intro acc; simp only [List.foldl_cons, ih, List.map_cons, concatStrs_cons,
      String.append_assoc]

/-- C1 (code bug): with include pattern *.py matching a.py and b.py and exclude
pattern a.py matching the plain file a.py, `collect_files` returns both files:
the membership test compares the resolved `Path` object against the raw glob
result strings, which is always false in Python, so an exclude pattern that
matches a plain file (and is not a directory) excludes nothing, contrary to
the claimed result of exactly the list with b.py alone. -/
theorem collect_files_file_exclusion_ignored :
    collect_files c1_glob c1_glob c1_resolve c1_is_dir ["*.py"] ["a.py"] false =
      ["a.py", "b.py"] := by decide

/-- C2 (counterexample): with patterns a.py then *.py, where both match a.py,
`collect_files` returns a.py twice — the function never deduplicates, so the
claim that each resolved path appears at most once is false. -/
theorem collect_files_duplicate_counterexample :
    collect_files c2_glob c2_glob c2_resolve c2_is_dir ["a.py", "*.py"] [] false =
      ["a.py", "a.py", "b.py"] ∧
    ¬((collect_files c2_glob c2_glob c2_resolve c2_is_dir ["a.py", "*.py"] [] false).count
        "a.py" ≤ 1) := by
  constructor
  · decide
  · decide

/-- C2 (amended): the list returned by `collect_files` is exactly the
concatenation of each pattern's glob matches, in the order the patterns were
given and preserving each pattern's match order, filtered by the exclusion
test; a path matched by several patterns therefore appears once per match
(there is no deduplication). -/
theorem collect_files_eq_filter_flatMap (glob globR : String → List String)
    (resolve : String → List String) (is_dir : String → Bool)
    (patterns exclude_patterns : List String) (recursive : Bool) :
    collect_files glob globR resolve is_dir patterns exclude_patterns recursive =
      (patterns.flatMap (glob_for glob globR recursive)).filter
        (not_excluded glob globR resolve is_dir exclude_patterns recursive) := by
  unfold collect_files
  rw [foldl_append_flatMap, foldl_filter_append]
  simp

/-- C3 (code bug): on a 100-character document of five 20-character lines with
chunk size 40, the dry-run pre-pass `count_chunks` computes a TOTAL of 3, but
`split_into_chunks_with_messages` actually writes 4 chunks (the pre-pass
resets its buffer to the empty string at a split, while the real loop resets
it to the nonempty start-of-part message, so the real loop splits more
often); the footers of this run say "of 3" although there are 4 parts. -/
theorem count_chunks_disagrees_with_split :
    count_chunks chunk_doc_c3 40 = 3 ∧
    (split_into_chunks_with_messages chunk_doc_c3 40).length = 4 := by
  constructor
  · decide
  · decide

/-- C4 (code bug): on the document "aaaaa\n```py\n" with chunk size 10, the two
chunks produced by `split_into_chunks_with_messages` contain 1 and 3
fence-marker lines respectively — both odd, refuting the claim that every
chunk contains an even number of fence-marker lines.  The fence flag is
toggled before the size check, so when the line that overflows the budget is
itself a fence opener the splitter force-closes a fence that the finalized
chunk never opened and reopens one in the next chunk right before the
original opener. -/
theorem split_chunks_odd_fence_lines :
    (split_into_chunks_with_messages chunk_doc_c4 10).map (fun c =>
      ((splitLinesKeepEnds (chunkText c)).filter (fun l => strStartsWith l fenceMarker)).length)
      = [1, 3] := by decide

/-- C6: `concatenate_files` is a total function whose files section is one
block per file in order; a file whose read fails (modelled by `read file =
none`: the exception is caught and an error logged) still contributes its
path header and its opening/closing fence pair around empty content, and the
blocks of all subsequent files are produced unchanged — a single bad file
never aborts the run. -/
theorem concatenate_files_bad_file_resilient (read : String → Option String)
    (parts : String → List String) (rel resolve_str : String → String)
    (skip_prompt : Bool) (prompt_file : Option String) (files : List String) :
    concatenate_files read parts rel resolve_str files skip_prompt prompt_file =
      preamble_out read prompt_file skip_prompt ++ structure_section parts files ++
        "\nHere are the files:\n\n" ++
        concatStrs (files.map (file_block read rel resolve_str)) ∧
    ∀ file, read file = none →
      file_block read rel resolve_str file =
        "./" ++ rel file ++ "\n\n" ++ ("```" ++ get_file_type (resolve_str file) ++ "\n") ++
          "\n```\n\n" := by
  constructor
  · unfold concatenate_files files_loop
    rw [foldl_append_concatStrs, String.empty_append]
  · intro file h
    unfold file_block
    rw [h, String.append_empty]

/-- Witness for C6 at a concrete input: gone.py is unreadable, ok.py is
readable and still processed. -/
theorem concatenate_files_bad_file_resilient_witness :
    (concatenate_files c6_read c6_parts id id ["gone.py", "ok.py"] true none =
      preamble_out c6_read none true ++ structure_section c6_parts ["gone.py", "ok.py"] ++
        "\nHere are the files:\n\n" ++
        concatStrs (["gone.py", "ok.py"].map (file_block c6_read id id))) ∧
    file_block c6_read id id "gone.py" =
      "./" ++ id "gone.py" ++ "\n\n" ++ ("```" ++ get_file_type (id "gone.py") ++ "\n") ++
        "\n```\n\n" :=
  ⟨(concatenate_files_bad_file_resilient c6_read c6_parts id id true none
      ["gone.py", "ok.py"]).1,
   (concatenate_files_bad_file_resilient c6_read c6_parts id id true none
      ["gone.py", "ok.py"]).2 "gone.py" (by decide)⟩

/-- C7 (counterexample): when collection yields zero files the script logs the
fatal error and writes no output files, but `main` just returns, so the
process terminates with exit status 0 — not a non-zero-equivalent status. -/
theorem main_run_zero_files_exit_code_zero :
    (main_run c7_glob c7_glob (fun s => [s]) (fun _ => false) (fun _ => none) (fun _ => [])
      id id ["*.py"] [] false "output.md" false none 100000).exit_code = 0 ∧
    (main_run c7_glob c7_glob (fun s => [s]) (fun _ => false) (fun _ => none) (fun _ => [])
      id id ["*.py"] [] false "output.md" false none 100000).no_files_error = true := by
  constructor
  · decide
  · decide

/-- C7 (amended): whenever collection yields zero files, the run terminates
early with the no-files error logged and no output files written, and the
exit status is the ordinary 0 of a plain return from `main`. -/
theorem main_run_zero_files_no_output (glob globR : String → List String)
    (resolve : String → List String) (is_dir : String → Bool)
    (read : String → Option String) (parts : String → List String)
    (rel resolve_str : String → String) (patterns exclude : List String) (recursive : Bool)
    (output : String) (skip_prompt : Bool) (prompt_file : Option String) (chunk_size : Nat)
    (h : collect_files glob globR resolve is_dir patterns exclude recursive = []) :
    main_run glob globR resolve is_dir read parts rel resolve_str patterns exclude recursive
      output skip_prompt prompt_file chunk_size = ⟨0, [], true⟩ := by
  unfold main_run
  rw [h]
  rfl

/-- Witness for C7 at a concrete input where no pattern matches anything. -/
theorem main_run_zero_files_no_output_witness :
    main_run c7_glob c7_glob (fun s => [s]) (fun _ => false) (fun _ => none) (fun _ => [])
      id id ["*.js"] [] false "output.md" true none 150000 = ⟨0, [], true⟩ :=
  main_run_zero_files_no_output c7_glob c7_glob (fun s => [s]) (fun _ => false)
    (fun _ => none) (fun _ => []) id id ["*.js"] [] false "output.md" true none 150000
    (by decide)

/-- C8 (code bug): `get_file_type` consults only the lower-cased
`Path(file).suffix`, so the bare-filename keys that the table itself carries
(Makefile mapping to make, CMakeLists.txt mapping to cmake) are unreachable:
both files get the generic text tag instead of the tag the table assigns
them. -/
theorem get_file_type_bare_filename_unreachable :
    get_file_type "Makefile" = "text" ∧ get_file_type "CMakeLists.txt" = "text" ∧
    dict_get FILE_TYPE_LANGUAGES "Makefile" "text" = "make" ∧
    dict_get FILE_TYPE_LANGUAGES "CMakeLists.txt" "text" = "cmake" := by
  refine ⟨by decide, by decide, by decide, by decide⟩

/-- C9: the assembled document starts with exactly one of the explicit
preamble file's raw content followed by a blank line, the built-in
instructional preamble, or nothing: an explicit (truthy) preamble source
takes precedence over the built-in one and suppresses it even when its read
fails (nothing is emitted then), and skip_prompt suppresses only the
built-in preamble. -/
theorem preamble_exactly_one_of_three (read : String → Option String)
    (parts : String → List String) (rel resolve_str : String → String)
    (files : List String) (prompt_file : Option String) (skip_prompt : Bool) :
    concatenate_files read parts rel resolve_str files skip_prompt prompt_file =
      (if pyTruthy prompt_file then
        match read (prompt_file.getD "") with
        | some prompt_content => prompt_content ++ "\n\n"
        | none => ""
       else if skip_prompt then "" else builtin_prompt) ++
      structure_section parts files ++ "\nHere are the files:\n\n" ++
      files_loop read rel resolve_str files := by
  unfold concatenate_files preamble_out
  cases h : pyTruthy prompt_file <;> cases skip_prompt <;> simp [h]

/-- C10: `generate_directory_structure` deduplicates by exact rendered line
text, not by path prefix: for files a/x/f.py and b/x/g.py, whose directories
a/x and b/x share the segment name x at the same depth, the rendered line for
x is emitted exactly once (in the position given by the first file), so the
two distinct (depth, path-prefix) pairs collapse into a single output
line. -/
theorem directory_structure_dedups_by_line_text :
    generate_directory_structure c10_parts ["a/x/f.py", "b/x/g.py"] =
      ["├── a", "│   ├── x", "│   │   ├── f.py", "├── b", "│   │   ├── g.py"] ∧
    (generate_directory_structure c10_parts ["a/x/f.py", "b/x/g.py"]).count "│   ├── x" = 1
      := by
  constructor
  · decide
  · decide
